import Mathlib

/-!
Verification of the hexgrid coordinate-algebra library.

The library provides axial and cube coordinates for flat-topped hex
grids, compass directions, neighbor stepping, hex Manhattan distance,
and Cartesian projection.  We embed the library shallowly: the generic
numeric parameter `T : Num` is instantiated at the integers (the ring
semantics Rust integer types give, with `/` as truncating division,
modelled by `Int.tdiv`), and the floating-point parameter `U : Float`
used by the Cartesian projection is idealized as the real numbers.
-/

/-- Compass directions on the flat-topped hex grid, in the declaration
order of the source enum: `NE, N, NW, SW, S, SE`. -/
inductive Direction : Type
  | NE
  | N
  | NW
  | SW
  | S
  | SE
deriving DecidableEq, Repr

/-- Error carrying an out-of-range direction index
(`pub struct DirectionError(pub usize)`). -/
structure DirectionError : Type where
  val : Nat
deriving DecidableEq, Repr

/-- The value of `d as usize`: the discriminant of the enum in its
declaration order. This is the `From<Direction> for usize` conversion. -/
def Direction.toIndex : Direction → Nat
  | .NE => 0
  | .N => 1
  | .NW => 2
  | .SW => 3
  | .S => 4
  | .SE => 5

/-- The lookup table `DIRNS` used by `TryFrom<usize> for Direction`:
`const DIRNS: [Direction; 6] = [N, NW, SW, S, SE, NE];`. -/
def DIRNS : List Direction :=
  [Direction.N, Direction.NW, Direction.SW, Direction.S, Direction.SE, Direction.NE]

/-- The `TryFrom<usize> for Direction` conversion: an index at or above
`DIRNS.len()` is rejected with `DirectionError(d)`; otherwise the entry
`DIRNS[d]` is returned. -/
def Direction.try_from (d : Nat) : Except DirectionError Direction :=
  if h : d < DIRNS.length then Except.ok (DIRNS.get ⟨d, h⟩) else Except.error ⟨d⟩

/-- Hex grid location in axial coordinates (`pub struct HexCoord<T>`),
instantiated at `T = Int`. -/
structure HexCoord : Type where
  q : Int
  r : Int
deriving DecidableEq, Repr

/-- `HexCoord::new(q, r)`. -/
def HexCoord.new (q r : Int) : HexCoord :=
  ⟨q, r⟩

/-- `HexCoord::neighbor(self, d)`: the axial coordinate of the hex
neighboring `self` in direction `d`, by the match in the source. -/
def HexCoord.neighbor (c : HexCoord) : Direction → HexCoord
  | .NE => HexCoord.new (c.q + 1) (c.r + 1)
  | .N => HexCoord.new c.q (c.r + 1)
  | .NW => HexCoord.new (c.q - 1) c.r
  | .SW => HexCoord.new (c.q - 1) (c.r - 1)
  | .S => HexCoord.new c.q (c.r - 1)
  | .SE => HexCoord.new (c.q + 1) c.r

/-- Hex cube coordinates (`pub struct HexCubeCoord<T>`), instantiated at
`T = Int`. The Rust type keeps its fields private to protect the cube
invariant; the embedding exposes them, and theorems carry the invariant
as an explicit hypothesis where they need it. -/
structure HexCubeCoord : Type where
  x : Int
  y : Int
  z : Int
deriving DecidableEq, Repr

/-- Error indicating that the cube invariant was violated by the given
triple (`pub struct CubeInvariantError<T>`). -/
structure CubeInvariantError : Type where
  x : Int
  y : Int
  z : Int
deriving DecidableEq, Repr

/-- The cube coordinate invariant `x + y + z = 0`. -/
def cubeInvariant (c : HexCubeCoord) : Prop :=
  c.x + c.y + c.z = 0

instance : DecidablePred cubeInvariant :=
  fun c => inferInstanceAs (Decidable (c.x + c.y + c.z = 0))

/-- `HexCubeCoord::new(x, y, z)`: checks the invariant, returning the
coordinate on success and `CubeInvariantError { x, y, z }` on failure. -/
def HexCubeCoord.new (x y z : Int) : Except CubeInvariantError HexCubeCoord :=
  if x + y + z = 0 then Except.ok ⟨x, y, z⟩ else Except.error ⟨x, y, z⟩

/-- `HexCubeCoord::new_unchecked(x, y, z)`: no invariant check. -/
def HexCubeCoord.new_unchecked (x y z : Int) : HexCubeCoord :=
  ⟨x, y, z⟩

/-- `HexCubeCoord::coords(self)`: read-only projection of the fields. -/
def HexCubeCoord.coords (c : HexCubeCoord) : Int × Int × Int :=
  (c.x, c.y, c.z)

/-- The nested helper `abs_diff` inside `HexCubeCoord::distance`:
`if a <= b { b - a } else { a - b }`. -/
def abs_diff (a b : Int) : Int :=
  if a ≤ b then b - a else a - b

/-- `HexCubeCoord::distance(self, b)`: the sum of the componentwise
absolute differences, divided by two. Rust `/` on integers truncates
toward zero, which is `Int.tdiv`. -/
def HexCubeCoord.distance (a b : HexCubeCoord) : Int :=
  Int.tdiv (abs_diff a.x b.x + abs_diff a.y b.y + abs_diff a.z b.z) 2

/-- The `From<HexCoord<T>> for HexCubeCoord<T>` conversion:
`y = zero - q - r`, giving `HexCubeCoord::new_unchecked(q, y, r)`. -/
def HexCubeCoord.fromCoord (c : HexCoord) : HexCubeCoord :=
  HexCubeCoord.new_unchecked c.q (0 - c.q - c.r) c.r

/-- The `From<HexCubeCoord<T>> for HexCoord<T>` conversion:
`HexCoord::new(c.x, c.z)`. It is total and ignores the `y` field. -/
def HexCoord.fromCube (c : HexCubeCoord) : HexCoord :=
  HexCoord.new c.x c.z

/-- `HexCoord::distance(self, b)`: converts both operands to cube
coordinates and delegates to `HexCubeCoord::distance`. -/
def HexCoord.distance (a b : HexCoord) : Int :=
  HexCubeCoord.distance (HexCubeCoord.fromCoord a) (HexCubeCoord.fromCoord b)

/-- `HexCubeCoord::neighbor(self, d)`: delegates through the axial
representation: `HexCoord::from(self).neighbor(d).into()`. -/
def HexCubeCoord.neighbor (c : HexCubeCoord) (d : Direction) : HexCubeCoord :=
  HexCubeCoord.fromCoord ((HexCoord.fromCube c).neighbor d)

/-- Modelled from the spec: the compass-opposite pairing of directions
(NE with SW, N with S, NW with SE). The source file has no such
function; the pairing is the one the spec names. -/
def Direction.opposite : Direction → Direction
  | .NE => .SW
  | .N => .S
  | .NW => .SE
  | .SW => .NE
  | .S => .N
  | .SE => .NW

/-- The axial offset a single step in direction `d` adds, read off from
`HexCoord.neighbor` at the origin. -/
def neighborOffset (d : Direction) : Int × Int :=
  (((HexCoord.new 0 0).neighbor d).q, ((HexCoord.new 0 0).neighbor d).r)

/-- `HexCoord::cartesian_center(self)`: Cartesian center of the hex for
unit-width flat-topped hexes, `x = 0.75 * q` and
`y = -(0.5 * sqrt 3) * (0.5 * q - r)`, with the floating-point type `U`
idealized as the real numbers. -/
noncomputable def HexCoord.cartesian_center (c : HexCoord) : ℝ × ℝ :=
  ((0.75 : ℝ) * (c.q : ℝ),
    -((0.5 : ℝ) * Real.sqrt 3) * ((0.5 : ℝ) * (c.q : ℝ) - (c.r : ℝ)))

/-- `HexCoord::cartesian_corners(self)`: the six corner points around
`cartesian_center`, counterclockwise from the easternmost, exactly as
listed in the source array. -/
noncomputable def HexCoord.cartesian_corners (c : HexCoord) : List (ℝ × ℝ) :=
  let p := c.cartesian_center
  let x := p.1
  let y := p.2
  [((0.5 : ℝ) + x, y),
    ((0.25 : ℝ) + x, (0.5 : ℝ) * ((0.5 : ℝ) * Real.sqrt 3) + y),
    (-(0.25 : ℝ) + x, (0.5 : ℝ) * ((0.5 : ℝ) * Real.sqrt 3) + y),
    (-(0.5 : ℝ) + x, y),
    (-(0.25 : ℝ) + x, -(0.5 : ℝ) * ((0.5 : ℝ) * Real.sqrt 3) + y),
    ((0.25 : ℝ) + x, -(0.5 : ℝ) * ((0.5 : ℝ) * Real.sqrt 3) + y)]

/-- Claim C1: the code maps `Direction` to indices via the enum
discriminant (`NE = 0`) but maps indices back through the table
`DIRNS = [N, NW, SW, S, SE, NE]`, which lists the directions in a
different order, so the round trip fails: `from_index(to_index(NE))`
returns `N`, not `NE`. This theorem evaluates the code at the failing
input `NE`. -/
theorem direction_index_roundtrip_fails :
    Direction.try_from (Direction.toIndex Direction.NE) = Except.ok Direction.N ∧
      Direction.N ≠ Direction.NE := by
  constructor
  · rfl
  · decide

/-- Claim C2 counterexample: the claim says the Cube→Axial conversion
fails for every cube whose fields do not sum to zero; but the conversion
implemented in the source is total, and at the cube `(1, 1, 1)` (with
`1 + 1 + 1 ≠ 0`) it succeeds, returning the axial coordinate `(1, 1)`. -/
theorem cube_to_axial_not_partial :
    (1 : Int) + 1 + 1 ≠ 0 ∧
      HexCoord.fromCube (HexCubeCoord.new_unchecked 1 1 1) = HexCoord.new 1 1 := by
  constructor
  · decide
  · rfl

/-- Claim C2 amended: the Cube→Axial conversion implemented in the source
is total: for every cube value, also one whose fields do not sum to zero,
it succeeds without error and returns the axial coordinate
`(q = x, r = z)`. -/
theorem cube_to_axial_total :
    ∀ x y z : Int,
      HexCoord.fromCube (HexCubeCoord.new_unchecked x y z) = HexCoord.new x z :=
  fun _ _ _ => rfl

/-- Claim C3: the checked cube constructor succeeds exactly on triples
summing to zero, returning a cube with those fields, and otherwise fails
with an error carrying the rejected triple; in particular `new(1,1,1)`
fails and `new(1,-1,0)` succeeds. -/
theorem cube_new_spec (x y z : Int) :
    (x + y + z = 0 → HexCubeCoord.new x y z = Except.ok (HexCubeCoord.new_unchecked x y z)) ∧
      (x + y + z ≠ 0 → HexCubeCoord.new x y z = Except.error ⟨x, y, z⟩) ∧
      HexCubeCoord.new 1 1 1 = Except.error ⟨1, 1, 1⟩ ∧
      HexCubeCoord.new 1 (-1) 0 = Except.ok (HexCubeCoord.new_unchecked 1 (-1) 0) := by
  refine ⟨fun h => ?_, fun h => ?_, rfl, rfl⟩
  · simp [HexCubeCoord.new, h, HexCubeCoord.new_unchecked]
  · simp [HexCubeCoord.new, h]

/-- Claim C3 witness: the constructor spec applied at the concrete
triples `(1, -1, 0)` and `(1, 1, 1)`. -/
theorem cube_new_spec_witness :
    (1 : Int) + (-1) + 0 = 0 ∧
      HexCubeCoord.new 1 (-1) 0 = Except.ok (HexCubeCoord.new_unchecked 1 (-1) 0) :=
  ⟨by decide, (cube_new_spec 1 (-1) 0).1 (by decide)⟩

/-- Claim C4: converting an axial coordinate to cube coordinates and
back to axial is the identity. -/
theorem axial_cube_roundtrip :
    ∀ a : HexCoord, HexCoord.fromCube (HexCubeCoord.fromCoord a) = a :=
  fun _ => rfl

/-- Claim C5: the Axial→Cube conversion is total and maps `(q, r)` to
`(x = q, y = -q - r, z = r)`, which satisfies the cube invariant; and
the operations producing a cube coordinate from a validly constructed
one, in particular neighbor stepping, preserve the invariant. -/
theorem axial_to_cube_valid (q r : Int) (c : HexCubeCoord) (d : Direction)
    (hc : cubeInvariant c) :
    HexCubeCoord.fromCoord (HexCoord.new q r) = HexCubeCoord.new_unchecked q (-q - r) r ∧
      cubeInvariant (HexCubeCoord.fromCoord (HexCoord.new q r)) ∧
      cubeInvariant (HexCubeCoord.neighbor c d) := by
  refine ⟨?_, ?_, ?_⟩
  · simp [HexCubeCoord.fromCoord, HexCoord.new, HexCubeCoord.new_unchecked]
  · simp [cubeInvariant, HexCubeCoord.fromCoord, HexCoord.new, HexCubeCoord.new_unchecked]
    omega
  · cases d <;>
      simp only [cubeInvariant, HexCubeCoord.neighbor, HexCubeCoord.fromCoord,
        HexCoord.fromCube, HexCoord.neighbor, HexCoord.new,
        HexCubeCoord.new_unchecked] <;>
      omega

/-- Claim C5 witness: the statement applied at `(q, r) = (1, 2)`, the
valid cube `(1, -1, 0)` and direction `NE`. -/
theorem axial_to_cube_valid_witness :
    cubeInvariant (HexCubeCoord.new_unchecked 1 (-1) 0) ∧
      (HexCubeCoord.fromCoord (HexCoord.new 1 2) = HexCubeCoord.new_unchecked 1 (-3) 2 ∧
        cubeInvariant (HexCubeCoord.fromCoord (HexCoord.new 1 2)) ∧
        cubeInvariant ((HexCubeCoord.new_unchecked 1 (-1) 0).neighbor Direction.NE)) :=
  ⟨by decide,
    axial_to_cube_valid 1 2 (HexCubeCoord.new_unchecked 1 (-1) 0) Direction.NE (by decide)⟩

/-- Claim C6: the six axial neighbor offsets pair off as additive
inverses across compass opposites, the six offsets sum to the zero
vector, and stepping in a direction and then in its opposite returns to
the starting coordinate. -/
theorem neighbor_offsets_spec (c : HexCoord) (d : Direction) :
    (neighborOffset Direction.NE = -neighborOffset Direction.SW ∧
        neighborOffset Direction.N = -neighborOffset Direction.S ∧
        neighborOffset Direction.NW = -neighborOffset Direction.SE) ∧
      neighborOffset Direction.NE + neighborOffset Direction.N +
          neighborOffset Direction.NW + neighborOffset Direction.SW +
          neighborOffset Direction.S + neighborOffset Direction.SE = (0, 0) ∧
      (c.neighbor d).neighbor d.opposite = c := by
  refine ⟨by decide, by decide, ?_⟩
  cases d <;>
    simp [HexCoord.neighbor, Direction.opposite, HexCoord.new]

/-- Claim C10: the Cube→Axial conversion reads only the `x` and `z`
fields, succeeding on every cube value, even one built by
`new_unchecked` in violation of the invariant; and converting any cube
value to axial and back yields a cube satisfying the invariant, with
`y` recomputed as `-x - z`. -/
theorem cube_axial_conversion_total (x y z : Int) :
    HexCoord.fromCube (HexCubeCoord.new_unchecked x y z) = HexCoord.new x z ∧
      HexCubeCoord.fromCoord (HexCoord.fromCube (HexCubeCoord.new_unchecked x y z)) =
        HexCubeCoord.new_unchecked x (-x - z) z ∧
      cubeInvariant
        (HexCubeCoord.fromCoord (HexCoord.fromCube (HexCubeCoord.new_unchecked x y z))) := by
  refine ⟨rfl, ?_, ?_⟩
  · simp [HexCubeCoord.fromCoord, HexCoord.fromCube, HexCoord.new,
      HexCubeCoord.new_unchecked]
  · simp [cubeInvariant, HexCubeCoord.fromCoord, HexCoord.fromCube, HexCoord.new,
      HexCubeCoord.new_unchecked]
    omega

/-- The helper `abs_diff` computes the absolute difference. -/
theorem abs_diff_eq_abs (a b : Int) : abs_diff a b = |a - b| := by
  unfold abs_diff
  split
  · rename_i h
    rw [abs_sub_comm, abs_of_nonneg (by omega)]
  · rename_i h
    rw [abs_of_nonneg (by omega)]

/-- The cube distance, written with absolute values and mathematical
(Euclidean) division; the truncating division of the source agrees with
it because the dividend is nonnegative. -/
theorem distance_eq (a b : HexCubeCoord) :
    HexCubeCoord.distance a b = (|a.x - b.x| + |a.y - b.y| + |a.z - b.z|) / 2 := by
  unfold HexCubeCoord.distance
  rw [abs_diff_eq_abs, abs_diff_eq_abs, abs_diff_eq_abs]
  exact Int.tdiv_eq_ediv (by positivity) (by norm_num)

/-- Claim C7: cube distance equals the sum of componentwise absolute
differences divided by two; axial distance converts both operands to
cube coordinates and takes the cube distance; and the distance between
the cubes `(0,0,0)` and `(-1,3,-2)` is `3`. -/
theorem distance_spec (a b : HexCubeCoord) :
    HexCubeCoord.distance a b = (|a.x - b.x| + |a.y - b.y| + |a.z - b.z|) / 2 ∧
      (∀ p q : HexCoord,
        HexCoord.distance p q =
          HexCubeCoord.distance (HexCubeCoord.fromCoord p) (HexCubeCoord.fromCoord q)) ∧
      HexCubeCoord.distance (HexCubeCoord.new_unchecked 0 0 0)
          (HexCubeCoord.new_unchecked (-1) 3 (-2)) = 3 :=
  ⟨distance_eq a b, fun _ _ => rfl, rfl⟩

/-- A sum of three absolute values of integers summing to zero is even. -/
theorem sum_abs_even (p q r : Int) (h : p + q + r = 0) : 2 ∣ (|p| + |q| + |r|) := by
  rcases abs_cases p with ⟨hp, _⟩ | ⟨hp, _⟩ <;>
    rcases abs_cases q with ⟨hq, _⟩ | ⟨hq, _⟩ <;>
      rcases abs_cases r with ⟨hr, _⟩ | ⟨hr, _⟩ <;>
        rw [hp, hq, hr] <;> omega

/-- Claim C8: over cube coordinates satisfying the invariant, distance
is a metric: zero on the diagonal, symmetric, and obeying the triangle
inequality. -/
theorem cube_distance_metric (a b c : HexCubeCoord)
    (ha : cubeInvariant a) (hb : cubeInvariant b) (hc : cubeInvariant c) :
    HexCubeCoord.distance a a = 0 ∧
      HexCubeCoord.distance a b = HexCubeCoord.distance b a ∧
      HexCubeCoord.distance a c ≤ HexCubeCoord.distance a b + HexCubeCoord.distance b c := by
  refine ⟨?_, ?_, ?_⟩
  · rw [distance_eq]
    simp
  · rw [distance_eq, distance_eq, abs_sub_comm a.x b.x, abs_sub_comm a.y b.y,
      abs_sub_comm a.z b.z]
  · rw [distance_eq, distance_eq, distance_eq]
    have hab : 2 ∣ (|a.x - b.x| + |a.y - b.y| + |a.z - b.z|) := by
      apply sum_abs_even
      simp only [cubeInvariant] at ha hb
      omega
    have hbc : 2 ∣ (|b.x - c.x| + |b.y - c.y| + |b.z - c.z|) := by
      apply sum_abs_even
      simp only [cubeInvariant] at hb hc
      omega
    have t1 : |a.x - c.x| ≤ |a.x - b.x| + |b.x - c.x| := abs_sub_le _ _ _
    have t2 : |a.y - c.y| ≤ |a.y - b.y| + |b.y - c.y| := abs_sub_le _ _ _
    have t3 : |a.z - c.z| ≤ |a.z - b.z| + |b.z - c.z| := abs_sub_le _ _ _
    omega

/-- Claim C8 witness: the metric laws applied at the concrete valid
cubes `(0,0,0)`, `(1,-1,0)` and `(-1,3,-2)`. -/
theorem cube_distance_metric_witness :
    cubeInvariant (HexCubeCoord.new_unchecked 1 (-1) 0) ∧
      (HexCubeCoord.distance (HexCubeCoord.new_unchecked 0 0 0)
          (HexCubeCoord.new_unchecked 0 0 0) = 0 ∧
        HexCubeCoord.distance (HexCubeCoord.new_unchecked 0 0 0)
            (HexCubeCoord.new_unchecked 1 (-1) 0) =
          HexCubeCoord.distance (HexCubeCoord.new_unchecked 1 (-1) 0)
            (HexCubeCoord.new_unchecked 0 0 0) ∧
        HexCubeCoord.distance (HexCubeCoord.new_unchecked 0 0 0)
            (HexCubeCoord.new_unchecked (-1) 3 (-2)) ≤
          HexCubeCoord.distance (HexCubeCoord.new_unchecked 0 0 0)
              (HexCubeCoord.new_unchecked 1 (-1) 0) +
            HexCubeCoord.distance (HexCubeCoord.new_unchecked 1 (-1) 0)
              (HexCubeCoord.new_unchecked (-1) 3 (-2))) :=
  ⟨by decide,
    cube_distance_metric (HexCubeCoord.new_unchecked 0 0 0)
      (HexCubeCoord.new_unchecked 1 (-1) 0) (HexCubeCoord.new_unchecked (-1) 3 (-2))
      (by decide) (by decide) (by decide)⟩

/-- Claim C9: the Cartesian center of axial `(q, r)` is
`(0.75 * q, -(sqrt 3 / 2) * (0.5 * q - r))`; the corners are the six
points at the claimed offsets from the center, in the claimed order;
and the center of the origin is `(0, 0)`. -/
theorem cartesian_projection_spec :
    (∀ c : HexCoord,
      c.cartesian_center =
        ((0.75 : ℝ) * (c.q : ℝ), -(Real.sqrt 3 / 2) * ((0.5 : ℝ) * (c.q : ℝ) - (c.r : ℝ))) ∧
      c.cartesian_corners =
        [(c.cartesian_center.1 + 0.5, c.cartesian_center.2),
          (c.cartesian_center.1 + 0.25, c.cartesian_center.2 + Real.sqrt 3 / 4),
          (c.cartesian_center.1 - 0.25, c.cartesian_center.2 + Real.sqrt 3 / 4),
          (c.cartesian_center.1 - 0.5, c.cartesian_center.2),
          (c.cartesian_center.1 - 0.25, c.cartesian_center.2 - Real.sqrt 3 / 4),
          (c.cartesian_center.1 + 0.25, c.cartesian_center.2 - Real.sqrt 3 / 4)]) ∧
      (HexCoord.new 0 0).cartesian_center = ((0 : ℝ), (0 : ℝ)) := by
  refine ⟨fun c => ⟨?_, ?_⟩, ?_⟩
  · unfold HexCoord.cartesian_center
    simp only [Prod.mk.injEq]
    and_intros <;> first | trivial | ring
  · unfold HexCoord.cartesian_corners
    simp only [List.cons.injEq, Prod.mk.injEq, and_true]
    and_intros <;> first | trivial | ring
  · unfold HexCoord.cartesian_center HexCoord.new
    norm_num
